import Mathlib

/-!
Shallow embedding of `parallel_ocr.py` (Dcas_OCR repository).

Modelling conventions:
* Python dataclasses become Lean structures with the same field names and
  defaults (`OCRTaskResult`, `BatchOCRResult`, `PatientInfo`).
* The download dictionaries produced by `_download_image` become the
  `DownloadResult` structure; keys that a given code path omits are `none`
  (Python's `dict.get` returns `None` for missing keys).
* External effects (the Dcas network fetch, the PaddleOCR engine, wall-clock
  time, Python's float `round(·, 4)`) are abstracted into an `Env` record of
  pure functions; the OCR engine may fail with `OCRError` or any other
  exception, modelled by `EngineErr`.
* Side effects are made observable through an explicit event trace
  (`Event`): progress updates, fetch submissions, lock acquire/release,
  engine invocations, temp-file deletions and completion callbacks.  The
  source never touches `self._ocr_lock` around the engine call, so no
  function below ever emits a lock event; the constructors exist so that
  lock-discipline properties are statable.
* The local file system is a list of existing temp-file paths (`FS`);
  `os.unlink` removes a path, `os.path.exists` is list membership.  The
  `try/except: pass` around `os.unlink` guards against races with other
  processes, which are outside this single-process model, so `unlink` here
  always succeeds.
* Phase 1 of `process_patients` collects download results in
  `as_completed` (completion) order; that nondeterminism is exposed as the
  `collected` parameter, constrained in theorems to be a permutation of the
  submission-order downloads.
* `OCRJobManager` stores Python dicts whose `"results"` value is a mutable
  list object; `dict.copy()` copies the mapping but shares that list.  The
  embedding makes the reference explicit: `JobRec.resultsRef` is an address
  into a heap of list cells (`ManagerState.heap`), and copying a `JobRec`
  copies the address, exactly like the shallow `dict.copy()`.
-/

/-- `dcas_client.PatientInfo` (dcas_client.py lines 47-55), with the same
dataclass defaults. -/
structure PatientInfo where
  cine_no : String
  patient_id : String
  patient_name : String := ""
  gender : String := ""
  age : String := ""
  study_date : String := ""
  modality : String := "XA"
deriving DecidableEq

/-- `ocr_processor.OCRResult`: one recognized line with its confidence.
Confidence is a rational abstracting the Python float. -/
structure OCRResult where
  text : String
  confidence : ℚ
deriving DecidableEq

/-- `ocr_processor.PageResult`: the per-page list of recognized lines. -/
structure PageResult where
  results : List OCRResult
deriving DecidableEq

/-- One entry of `OCRTaskResult.lines`: the dict
`{"text": r.text, "confidence": round(r.confidence, 4)}` built at
parallel_ocr.py lines 253-256. -/
structure LineDict where
  text : String
  confidence : ℚ
deriving DecidableEq

/-- `parallel_ocr.OCRTaskResult` (lines 23-32) with the dataclass defaults;
`processing_time` is a rational abstracting the float seconds. -/
structure OCRTaskResult where
  patient : PatientInfo
  success : Bool
  text : String := ""
  lines : List LineDict := []
  image_url : String := ""
  error : String := ""
  processing_time : ℚ := 0
deriving DecidableEq

/-- `parallel_ocr.BatchOCRResult` (lines 49-57); datetimes are rationals. -/
structure BatchOCRResult where
  total : Nat
  success_count : Nat
  failure_count : Nat
  results : List OCRTaskResult
  start_time : ℚ
  end_time : Option ℚ := none
deriving DecidableEq

/-- `BatchOCRResult.elapsed_seconds` (lines 59-64). -/
def BatchOCRResult.elapsed_seconds (b : BatchOCRResult) : ℚ :=
  match b.end_time with
  | some e => e - b.start_time
  | none => 0

/-- The dictionary returned by `_download_image` (lines 153-216): on success
the keys `temp_file` and `report_url` are present, on failure only `error`
is; absent keys are `none`. -/
structure DownloadResult where
  patient : PatientInfo
  success : Bool
  temp_file : Option String := none
  report_url : Option String := none
  error : Option String := none
deriving DecidableEq

/-- The two exception classes `_perform_ocr` catches around the engine call
(lines 272-290): `OCRError` and any other `Exception`. -/
inductive EngineErr where
  | ocrError (msg : String)
  | otherError (msg : String)
deriving DecidableEq

/-- The message `str(e)` of a caught engine exception. -/
def EngineErr.msg : EngineErr → String
  | .ocrError m => m
  | .otherError m => m

/-- Observable side effects, in program order.  `progress` records one
`_update_progress(**kwargs)` call with the keyword arguments it passed
(absent keywords are `none`); `fetch` records one `_download_image`
submission; `engineCall` records one `ocr_processor.process_file` call;
`unlink` records one `os.unlink`; `onComplete` records one invocation of
the `on_complete` callback.  `lockAcquire`/`lockRelease` would record
operations on `self._ocr_lock`; the source code never performs any. -/
inductive Event where
  | fetch (p : PatientInfo)
  | progress (total : Option Nat) (completed : Option Nat)
      (current : Option String) (status : Option String)
  | lockAcquire
  | lockRelease
  | engineCall (file : Option String)
  | unlink (file : String)
  | onComplete (r : OCRTaskResult)
deriving DecidableEq

/-- The local file system: the set (as a list) of existing temp files. -/
abbrev FS := List String

/-- The external world of one `ParallelOCRProcessor`: the OCR engine
(`ocr_processor.process_file`, already closed over the confidence
threshold), the wall-clock duration of an engine call, Python's
`round(·, 4)` on floats, the Dcas fetch (`_download_image`'s network and
staging work, returning the result dict), whether an `on_complete`
callback was supplied, and the two `datetime.now()` readings that bracket
a batch. -/
structure Env where
  engine : Option String → Except EngineErr (List PageResult)
  duration : ℚ
  round4 : ℚ → ℚ
  download : PatientInfo → DownloadResult
  onCompleteSet : Bool
  t_start : ℚ
  t_end : ℚ

/-- The `try` body of `_perform_ocr` (lines 234-290): fetch-failure short
circuit, else one engine call and result conversion, with both exception
handlers turning engine errors into failed results.  Returns the task
result and the events the body emits. -/
def tryBody (env : Env) (dr : DownloadResult) : OCRTaskResult × List Event :=
  if dr.success = false then
    ({ patient := dr.patient, success := false,
       error := dr.error.getD "다운로드 실패" }, [])
  else
    let ev1 := Event.progress none none
      (some (dr.patient.patient_id ++ " - OCR 처리 중")) none
    match env.engine dr.temp_file with
    | .ok page_results =>
        let results := (page_results.head?.map PageResult.results).getD []
        ({ patient := dr.patient, success := true,
           text := String.intercalate "\n" (results.map OCRResult.text),
           lines := results.map fun r =>
             { text := r.text, confidence := env.round4 r.confidence },
           image_url := dr.report_url.getD "",
           processing_time := env.duration },
         [ev1, Event.engineCall dr.temp_file])
    | .error e =>
        ({ patient := dr.patient, success := false,
           error := "OCR 오류: " ++ e.msg,
           processing_time := env.duration },
         [ev1, Event.engineCall dr.temp_file])

/-- The `finally` block of `_perform_ocr` (lines 291-297):
`if temp_file and os.path.exists(temp_file): os.unlink(temp_file)`.
An empty-string path is falsy in Python, hence the `f ≠ ""` guard. -/
def finallyCleanup (fs : FS) (temp_file : Option String) : FS × List Event :=
  match temp_file with
  | none => (fs, [])
  | some f =>
      if f ≠ "" ∧ f ∈ fs then (fs.erase f, [Event.unlink f]) else (fs, [])

/-- Result of one `_perform_ocr` call: the task result, the file system
after the `finally` block, and the emitted events. -/
structure OcrStep where
  result : OCRTaskResult
  fs : FS
  evs : List Event
deriving DecidableEq

/-- `ParallelOCRProcessor._perform_ocr` (lines 218-297). -/
def performOcr (env : Env) (fs : FS) (dr : DownloadResult) : OcrStep :=
  let body := tryBody env dr
  let fin := finallyCleanup fs dr.temp_file
  { result := body.1, fs := fin.1, evs := body.2 ++ fin.2 }

/-- Output of the phase-2 loop of `process_patients`: the accumulated
result list, the two counters, the final file system and the events. -/
structure Phase2Out where
  results : List OCRTaskResult
  succ : Nat
  fail : Nat
  fs : FS
  evs : List Event
deriving DecidableEq

/-- The phase-2 loop of `process_patients` (lines 360-378): for each
collected download result in order, run `_perform_ocr`, append the result,
bump the matching counter, update progress with `completed=i+1`, and call
the optional `on_complete` callback.  `i` is the running `enumerate`
index. -/
def phase2 (env : Env) : FS → Nat → List DownloadResult → Phase2Out
  | fs, _, [] => { results := [], succ := 0, fail := 0, fs := fs, evs := [] }
  | fs, i, dr :: rest =>
      let step := performOcr env fs dr
      let tail := phase2 env step.fs (i + 1) rest
      { results := step.result :: tail.results
        succ := if step.result.success then tail.succ + 1 else tail.succ
        fail := if step.result.success then tail.fail else tail.fail + 1
        fs := tail.fs
        evs := step.evs
          ++ [Event.progress none (some (i + 1))
               (some ("OCR 완료: " ++ step.result.patient.patient_id)) none]
          ++ (if env.onCompleteSet then [Event.onComplete step.result] else [])
          ++ tail.evs }

/-- Phase 1's observable per-collection effects (lines 348-353): one fetch
per item (the worker submissions, recorded in collection order — thread
interleaving is abstracted) and one progress update
`current="다운로드 완료: k/n"` per collected outcome. -/
def phase1Events (n : Nat) : Nat → List DownloadResult → List Event
  | _, [] => []
  | k, dr :: rest =>
      Event.fetch dr.patient
        :: Event.progress none none
             (some ("다운로드 완료: " ++ toString k ++ "/" ++ toString n)) none
        :: phase1Events n (k + 1) rest

/-- Output of one `process_patients` run: the batch result, the file
system after the run, and the event trace. -/
structure BatchOut where
  batch : BatchOCRResult
  fs : FS
  evs : List Event
deriving DecidableEq

/-- `ParallelOCRProcessor.process_patients` (lines 299-401).  `collected`
is the phase-1 download-result list in `as_completed` (completion) order;
theorems constrain it to be a permutation of `patients.map env.download`.
The empty-input guard (lines 316-324) returns before any progress update,
fetch or engine call.  Staged temp files enter the file system as phase 1
collects them. -/
def processPatients (env : Env) (fs : FS) (patients : List PatientInfo)
    (collected : List DownloadResult) : BatchOut :=
  if patients.isEmpty then
    { batch := { total := 0, success_count := 0, failure_count := 0,
                 results := [], start_time := env.t_start,
                 end_time := some env.t_end }
      fs := fs, evs := [] }
  else
    let ev0 := Event.progress (some patients.length) (some 0)
      (some "이미지 다운로드 중...") (some "processing")
    let fs1 := fs ++ collected.filterMap DownloadResult.temp_file
    let evs1 := phase1Events patients.length 1 collected
    let ev2 := Event.progress none none (some "OCR 처리 중...") none
    let p2 := phase2 env fs1 0 collected
    let ev3 := Event.progress none none (some "") (some "completed")
    { batch := { total := patients.length, success_count := p2.succ,
                 failure_count := p2.fail, results := p2.results,
                 start_time := env.t_start, end_time := some env.t_end }
      fs := p2.fs
      evs := ev0 :: evs1 ++ [ev2] ++ p2.evs ++ [ev3] }

/-- The `ValueError` message raised at parallel_ocr.py line 419. -/
def lengthMismatchMsg : String := "cine_nos와 patient_ids의 길이가 일치해야 합니다."

/-- `ParallelOCRProcessor.process_by_cine_nos` (lines 403-426): raises
`ValueError` on a length mismatch, else zips the two lists into
`PatientInfo` values (remaining dataclass fields defaulted) and delegates
to `process_patients`. -/
def processByCineNos (env : Env) (fs : FS) (cine_nos patient_ids : List String)
    (collected : List DownloadResult) : Except String BatchOut :=
  if cine_nos.length ≠ patient_ids.length then
    .error lengthMismatchMsg
  else
    .ok (processPatients env fs
      ((cine_nos.zip patient_ids).map fun cp =>
        { cine_no := cp.1, patient_id := cp.2 })
      collected)

/-- One record of `OCRJobManager._jobs` (lines 443-455).  The Python
dict's `"results"` value is a mutable list object; `resultsRef` is its
address in the manager heap, so copying a `JobRec` (the embedding of
`dict.copy()`) copies the reference, not the list. -/
structure JobRec where
  id : String
  status : String
  total : Nat
  completed : Nat
  success : Nat
  failure : Nat
  current : String
  resultsRef : Nat
  created_at : String
  started_at : Option String := none
  finished_at : Option String := none
deriving DecidableEq

/-- `OCRJobManager` state: the insertion-ordered job dict plus the heap of
results-list cells that job records point into.  Cell contents are the
appended result dicts, embedded as `OCRTaskResult` values. -/
structure ManagerState where
  jobs : List (String × JobRec)
  heap : List (List OCRTaskResult)
deriving DecidableEq

/-- Python dict assignment `d[k] = v`: replace in place if the key exists
(keeping its position, as dicts preserve insertion order), else append. -/
def dictInsert (k : String) (v : JobRec) :
    List (String × JobRec) → List (String × JobRec)
  | [] => [(k, v)]
  | (k', v') :: rest =>
      if k' = k then (k, v) :: rest else (k', v') :: dictInsert k v rest

/-- Python dict lookup `d[k]` / `k in d`. -/
def dictLookup (k : String) : List (String × JobRec) → Option JobRec
  | [] => none
  | (k', v) :: rest => if k' = k then some v else dictLookup k rest

/-- `OCRJobManager.create_job` (lines 440-456): unconditionally assign a
fresh record (status `"pending"`, zero counters, a newly allocated empty
results list) under `job_id` and return `self._jobs[job_id].copy()`.
`now` is `datetime.now().isoformat()`. -/
def createJob (st : ManagerState) (job_id : String) (total : Nat)
    (now : String) : JobRec × ManagerState :=
  let rec0 : JobRec :=
    { id := job_id, status := "pending", total := total, completed := 0,
      success := 0, failure := 0, current := "",
      resultsRef := st.heap.length, created_at := now }
  (rec0, { jobs := dictInsert job_id rec0 st.jobs, heap := st.heap ++ [[]] })

/-- `OCRJobManager.get_job` (lines 466-471): `self._jobs[job_id].copy()`
when present — a shallow copy, which the `JobRec` value is. -/
def getJob (st : ManagerState) (job_id : String) : Option JobRec :=
  dictLookup job_id st.jobs

/-- The keyword arguments of one `update_job(job_id, **kwargs)` call:
present fields replace the record's top-level values (`dict.update`).
Passing `results=<list>` rebinds the record's results reference. -/
structure JobUpdate where
  status : Option String := none
  total : Option Nat := none
  completed : Option Nat := none
  success : Option Nat := none
  failure : Option Nat := none
  current : Option String := none
  resultsRef : Option Nat := none
  started_at : Option (Option String) := none
  finished_at : Option (Option String) := none
deriving DecidableEq

/-- `self._jobs[job_id].update(kwargs)` merge of one update. -/
def applyUpdate (u : JobUpdate) (j : JobRec) : JobRec :=
  { j with
    status := u.status.getD j.status
    total := u.total.getD j.total
    completed := u.completed.getD j.completed
    success := u.success.getD j.success
    failure := u.failure.getD j.failure
    current := u.current.getD j.current
    resultsRef := u.resultsRef.getD j.resultsRef
    started_at := u.started_at.getD j.started_at
    finished_at := u.finished_at.getD j.finished_at }

/-- `OCRJobManager.update_job` (lines 458-464): merge-update then return a
shallow copy; `none` when the id is unknown. -/
def updateJob (st : ManagerState) (job_id : String) (u : JobUpdate) :
    Option JobRec × ManagerState :=
  match dictLookup job_id st.jobs with
  | some j =>
      let j' := applyUpdate u j
      (some j', { st with jobs := dictInsert job_id j' st.jobs })
  | none => (none, st)

/-- `OCRJobManager.delete_job` (lines 473-479). -/
def deleteJob (st : ManagerState) (job_id : String) : Bool × ManagerState :=
  match dictLookup job_id st.jobs with
  | some _ => (true, { st with jobs := st.jobs.filter fun kv => kv.1 ≠ job_id })
  | none => (false, st)

/-- `OCRJobManager.list_jobs` (lines 481-484): shallow copies of all
records in insertion order. -/
def listJobs (st : ManagerState) : List JobRec := st.jobs.map Prod.snd

/-- An in-place `append` on the mutable results list at heap address
`ref` — what backend/main.py lines 614-617 do to the list obtained from a
`get_job` snapshot, which is the very list the manager's internal record
references. -/
def appendResult (st : ManagerState) (ref : Nat) (r : OCRTaskResult) :
    ManagerState :=
  { st with heap := st.heap.set ref ((st.heap[ref]?.getD []) ++ [r]) }

/-- What a holder of snapshot `snap` observes when reading
`snap["results"]`: the current contents of the shared list object. -/
def viewResults (st : ManagerState) (snap : JobRec) : List OCRTaskResult :=
  st.heap[snap.resultsRef]?.getD []

/-- Recognizes engine-invocation events. -/
def Event.isEngineCall : Event → Bool
  | .engineCall _ => true
  | _ => false

/-- Recognizes operations on `self._ocr_lock`. -/
def Event.isLock : Event → Bool
  | .lockAcquire => true
  | .lockRelease => true
  | _ => false

/-- Recognizes `_update_progress` events. -/
def Event.isProgress : Event → Bool
  | .progress _ _ _ _ => true
  | _ => false

/-- Recognizes `_download_image` submissions. -/
def Event.isFetch : Event → Bool
  | .fetch _ => true
  | _ => false

/-- A concrete patient, used to instantiate theorems. -/
def samplePatient : PatientInfo := { cine_no := "CINE1", patient_id := "PT1" }

/-- A concrete environment whose engine succeeds with one recognized
line and whose fetch fails, used to instantiate theorems. -/
def engineOkEnv : Env where
  engine := fun _ => .ok [{ results := [{ text := "hello", confidence := 1 }] }]
  duration := 2
  round4 := id
  download := fun p =>
    { patient := p, success := false, error := some "다운로드 오류: timeout" }
  onCompleteSet := false
  t_start := 0
  t_end := 5

/-- Like `engineOkEnv` but the engine raises `OCRError("model crash")`. -/
def engineErrEnv : Env :=
  { engineOkEnv with engine := fun _ => .error (.ocrError "model crash") }

/-- A successful fetch outcome with a staged temp file. -/
def stagedDownload : DownloadResult :=
  { patient := samplePatient, success := true,
    temp_file := some "/tmp/r1.jpg", report_url := some "http://x/r1" }

/-- A failed fetch outcome carrying its error message. -/
def failedDownload : DownloadResult :=
  { patient := samplePatient, success := false,
    error := some "다운로드 오류: timeout" }

/-- The empty job registry. -/
def sampleState0 : ManagerState := { jobs := [], heap := [] }

/-- The record returned by a first `create_job` on the empty registry. -/
def jrec1 : JobRec := (createJob sampleState0 "job-1" 3 "2026-10-12T00:00:00").1

/-- The registry after that `create_job`. -/
def st1 : ManagerState := (createJob sampleState0 "job-1" 3 "2026-10-12T00:00:00").2

/-- A concrete item result appended to a job's results list. -/
def sampleTaskResult : OCRTaskResult :=
  { patient := samplePatient, success := true, text := "hello" }

lemma countP_isLock_tryBody (env : Env) (dr : DownloadResult) :
    (tryBody env dr).2.countP Event.isLock = 0 := by
  unfold tryBody
  split
  · rfl
  · split <;> rfl

lemma countP_isLock_cleanup (fs : FS) (tf : Option String) :
    (finallyCleanup fs tf).2.countP Event.isLock = 0 := by
  unfold finallyCleanup
  split
  · rfl
  · split <;> rfl

lemma countP_isLock_performOcr (env : Env) (fs : FS) (dr : DownloadResult) :
    (performOcr env fs dr).evs.countP Event.isLock = 0 := by
  unfold performOcr
  simp [List.countP_append, countP_isLock_tryBody, countP_isLock_cleanup]

lemma countP_isLock_phase2 (env : Env) (l : List DownloadResult) :
    ∀ (fs : FS) (i : Nat), (phase2 env fs i l).evs.countP Event.isLock = 0 := by
  induction l with
  | nil => intro fs i; rfl
  | cons dr rest ih =>
      intro fs i
      simp [phase2, List.countP_append, List.countP_cons, Event.isLock,
        countP_isLock_performOcr, ih]

lemma countP_isLock_phase1Events (n : Nat) (l : List DownloadResult) :
    ∀ (k : Nat), (phase1Events n k l).countP Event.isLock = 0 := by
  induction l with
  | nil => intro k; rfl
  | cons dr rest ih =>
      intro k
      simp [phase1Events, List.countP_cons, Event.isLock, ih]

lemma countP_isLock_processPatients (env : Env) (fs : FS)
    (patients : List PatientInfo) (collected : List DownloadResult) :
    (processPatients env fs patients collected).evs.countP Event.isLock = 0 := by
  unfold processPatients
  split
  · rfl
  · simp [List.countP_append, List.countP_cons, Event.isLock,
      countP_isLock_phase1Events, countP_isLock_phase2]

lemma countP_isEngineCall_cleanup (fs : FS) (tf : Option String) :
    (finallyCleanup fs tf).2.countP Event.isEngineCall = 0 := by
  unfold finallyCleanup
  split
  · rfl
  · split <;> rfl

lemma phase2_results (env : Env) (l : List DownloadResult) :
    ∀ (fs : FS) (i : Nat),
      (phase2 env fs i l).results = l.map fun dr => (tryBody env dr).1 := by
  induction l with
  | nil => intro fs i; rfl
  | cons dr rest ih =>
      intro fs i
      simp [phase2, performOcr, ih]

lemma phase2_counts (env : Env) (l : List DownloadResult) :
    ∀ (fs : FS) (i : Nat),
      (phase2 env fs i l).succ + (phase2 env fs i l).fail = l.length := by
  induction l with
  | nil => intro fs i; rfl
  | cons dr rest ih =>
      intro fs i
      have H := ih (performOcr env fs dr).fs (i + 1)
      by_cases h : (performOcr env fs dr).result.success
      · simp [phase2, h, List.length_cons]
        omega
      · simp [phase2, h, List.length_cons]
        omega

lemma count_unlink_tryBody (env : Env) (dr : DownloadResult) (g : String) :
    (tryBody env dr).2.count (Event.unlink g) = 0 := by
  unfold tryBody
  split
  · rfl
  · split <;> simp [List.count_cons]

lemma dictLookup_dictInsert (k : String) (v : JobRec)
    (l : List (String × JobRec)) :
    dictLookup k (dictInsert k v l) = some v := by
  induction l with
  | nil => simp [dictInsert, dictLookup]
  | cons kv rest ih =>
      obtain ⟨k', v'⟩ := kv
      by_cases h : k' = k
      · simp [dictInsert, dictLookup, h]
      · simp [dictInsert, dictLookup, h, ih]

/-- C1: for every batch run of `process_patients` (which always reaches the
completed/terminal state, witnessed by `end_time` being set), the returned
`BatchOCRResult` satisfies
`success_count + failure_count = total = results.length`, and `total` is
the length of the input patient list.  `collected` ranges over all
completion orders of the parallel downloads, i.e. all permutations of the
submission-order download results. -/
theorem process_patients_counts (env : Env) (fs : FS)
    (patients : List PatientInfo) (collected : List DownloadResult)
    (h : collected.Perm (patients.map env.download)) :
    (processPatients env fs patients collected).batch.success_count
        + (processPatients env fs patients collected).batch.failure_count
      = (processPatients env fs patients collected).batch.total
    ∧ (processPatients env fs patients collected).batch.total
        = patients.length
    ∧ (processPatients env fs patients collected).batch.results.length
        = patients.length
    ∧ (processPatients env fs patients collected).batch.end_time.isSome
        = true := by
  have hlen : collected.length = patients.length := by
    simpa using h.length_eq
  cases patients with
  | nil => simp [processPatients]
  | cons p ps =>
      refine ⟨?_, ?_, ?_, ?_⟩ <;>
        simp [processPatients, phase2_counts, phase2_results, hlen]

/-- C1 witness: the theorem instantiated on a one-patient batch whose
download fails, with the identity completion order. -/
theorem process_patients_counts_witness :
    ([engineOkEnv.download samplePatient] :
        List DownloadResult).Perm ([samplePatient].map engineOkEnv.download)
    ∧ ((processPatients engineOkEnv [] [samplePatient]
          [engineOkEnv.download samplePatient]).batch.success_count
        + (processPatients engineOkEnv [] [samplePatient]
            [engineOkEnv.download samplePatient]).batch.failure_count
      = (processPatients engineOkEnv [] [samplePatient]
          [engineOkEnv.download samplePatient]).batch.total
    ∧ (processPatients engineOkEnv [] [samplePatient]
        [engineOkEnv.download samplePatient]).batch.total
        = [samplePatient].length
    ∧ (processPatients engineOkEnv [] [samplePatient]
        [engineOkEnv.download samplePatient]).batch.results.length
        = [samplePatient].length
    ∧ (processPatients engineOkEnv [] [samplePatient]
        [engineOkEnv.download samplePatient]).batch.end_time.isSome
        = true) :=
  ⟨List.Perm.refl _,
   process_patients_counts engineOkEnv [] [samplePatient]
     [engineOkEnv.download samplePatient] (List.Perm.refl _)⟩

/-- C2 counterexample: the claim that a single lock is held around every
call into the recognition engine fails on the code.  On a successful fetch
outcome, `_perform_ocr` invokes the engine (an `engineCall` event appears
in its trace) yet never acquires `self._ocr_lock`: no `lockAcquire` event
occurs anywhere in the trace (parallel_ocr.py line 246 runs the engine
with no `with self._ocr_lock:` block; the lock created at line 109 is
never used). -/
theorem ocr_lock_never_acquired_counterexample :
    Event.engineCall (some "/tmp/r1.jpg")
        ∈ (performOcr engineOkEnv ["/tmp/r1.jpg"] stagedDownload).evs
    ∧ Event.lockAcquire
        ∉ (performOcr engineOkEnv ["/tmp/r1.jpg"] stagedDownload).evs := by
  decide

/-- C2 amended: `_ocr_lock` is created but never acquired or released —
no lock event occurs anywhere in a full `process_patients` run, for any
environment, batch and completion order.  Engine calls are serialized
only by the sequential phase-2 loop of a single batch; two batches
sharing the engine instance are not mutually excluded by any lock. -/
theorem process_patients_lock_free (env : Env) (fs : FS)
    (patients : List PatientInfo) (collected : List DownloadResult) :
    Event.lockAcquire ∉ (processPatients env fs patients collected).evs
    ∧ Event.lockRelease ∉ (processPatients env fs patients collected).evs := by
  have h := List.countP_eq_zero.mp
    (countP_isLock_processPatients env fs patients collected)
  exact ⟨fun hm => by simpa [Event.isLock] using h _ hm,
         fun hm => by simpa [Event.isLock] using h _ hm⟩

/-- C3 counterexample: the claim that a snapshot returned by `get_job` is
deep enough that later internal mutation — including appends to the job's
results list — is invisible to its holder fails on the code.  `get_job`
returns `dict.copy()`, a shallow copy sharing the `"results"` list object;
after an in-place append to the job's internal results list (what
backend/main.py lines 614-617 perform), the holder of the earlier
snapshot observes the changed list. -/
theorem job_snapshot_shallow_counterexample :
    getJob st1 "job-1" = some jrec1
    ∧ viewResults st1 jrec1 = []
    ∧ viewResults (appendResult st1 jrec1.resultsRef sampleTaskResult) jrec1
        = [sampleTaskResult]
    ∧ viewResults (appendResult st1 jrec1.resultsRef sampleTaskResult) jrec1
        ≠ viewResults st1 jrec1 := by
  decide

/-- C3 amended: the records returned by `create_job`, `get_job`,
`update_job` and `list_jobs` are shallow copies — later replacement of
top-level fields of the internal record is invisible to a holder of an
old snapshot, but the `results` list is shared by reference, so an
in-place append to the job's internal results list is visible through
every previously returned snapshot: the holder's view gains exactly the
appended element. -/
theorem snapshot_shares_results_list (st : ManagerState) (job_id : String)
    (snap : JobRec) (r : OCRTaskResult)
    (h1 : getJob st job_id = some snap)
    (h2 : snap.resultsRef < st.heap.length) :
    viewResults (appendResult st snap.resultsRef r) snap
      = viewResults st snap ++ [r] := by
  unfold viewResults appendResult
  rw [List.getElem?_set_eq_of_lt _ h2]
  rfl

/-- C3 amended witness: the amended theorem instantiated on the registry
holding one freshly created job. -/
theorem snapshot_shares_results_list_witness :
    getJob st1 "job-1" = some jrec1
    ∧ jrec1.resultsRef < st1.heap.length
    ∧ viewResults (appendResult st1 jrec1.resultsRef sampleTaskResult) jrec1
        = viewResults st1 jrec1 ++ [sampleTaskResult] :=
  ⟨by decide, by decide,
   snapshot_shares_results_list st1 "job-1" jrec1 sampleTaskResult
     (by decide) (by decide)⟩

/-- C4: for every fetch outcome carrying a staged temp file (a non-empty
path that exists), `_perform_ocr` deletes that file exactly once before
returning — the `finally` block runs on every exit path (fetch-failure
short circuit, engine success, engine error), so the trace holds exactly
one `unlink` of the file and the file is gone afterwards. -/
theorem perform_ocr_releases_staged (env : Env) (fs : FS)
    (dr : DownloadResult) (f : String)
    (h1 : dr.temp_file = some f) (h2 : f ≠ "") (h3 : f ∈ fs)
    (h4 : fs.Nodup) :
    (performOcr env fs dr).evs.count (Event.unlink f) = 1
    ∧ f ∉ (performOcr env fs dr).fs := by
  constructor
  · show ((tryBody env dr).2 ++ (finallyCleanup fs dr.temp_file).2).count
        (Event.unlink f) = 1
    rw [List.count_append, count_unlink_tryBody]
    simp [finallyCleanup, h1, h2, h3]
  · show f ∉ (finallyCleanup fs dr.temp_file).1
    simp [finallyCleanup, h1, h2, h3]
    exact h4.not_mem_erase

/-- C4 witness: the theorem instantiated on a staged download whose file
exists in the file system. -/
theorem perform_ocr_releases_staged_witness :
    stagedDownload.temp_file = some "/tmp/r1.jpg"
    ∧ "/tmp/r1.jpg" ≠ ""
    ∧ "/tmp/r1.jpg" ∈ (["/tmp/r1.jpg"] : FS)
    ∧ (["/tmp/r1.jpg"] : FS).Nodup
    ∧ ((performOcr engineOkEnv ["/tmp/r1.jpg"] stagedDownload).evs.count
          (Event.unlink "/tmp/r1.jpg") = 1
       ∧ "/tmp/r1.jpg" ∉ (performOcr engineOkEnv ["/tmp/r1.jpg"] stagedDownload).fs) :=
  ⟨rfl, by decide, by decide, by decide,
   perform_ocr_releases_staged engineOkEnv ["/tmp/r1.jpg"] stagedDownload
     "/tmp/r1.jpg" rfl (by decide) (by decide) (by decide)⟩

/-- C5: for every fetch outcome with `success=False`, `_perform_ocr`
returns a failed `OCRTaskResult` copying the fetch error, with
`processing_time = 0`, empty text and no lines, and the recognition
engine is never invoked (no `engineCall` event in the trace). -/
theorem perform_ocr_fetch_failure (env : Env) (fs : FS)
    (dr : DownloadResult) (msg : String)
    (h1 : dr.success = false) (h2 : dr.error = some msg) :
    (performOcr env fs dr).result.success = false
    ∧ (performOcr env fs dr).result.error = msg
    ∧ (performOcr env fs dr).result.processing_time = 0
    ∧ (performOcr env fs dr).result.text = ""
    ∧ (performOcr env fs dr).result.lines = []
    ∧ (performOcr env fs dr).evs.countP Event.isEngineCall = 0 := by
  refine ⟨?_, ?_, ?_, ?_, ?_, ?_⟩ <;>
    simp [performOcr, tryBody, h1, h2, List.countP_append,
      countP_isEngineCall_cleanup]

/-- C5 witness: the theorem instantiated on a failed download carrying a
concrete error message. -/
theorem perform_ocr_fetch_failure_witness :
    failedDownload.success = false
    ∧ failedDownload.error = some "다운로드 오류: timeout"
    ∧ ((performOcr engineOkEnv [] failedDownload).result.success = false
      ∧ (performOcr engineOkEnv [] failedDownload).result.error
          = "다운로드 오류: timeout"
      ∧ (performOcr engineOkEnv [] failedDownload).result.processing_time = 0
      ∧ (performOcr engineOkEnv [] failedDownload).result.text = ""
      ∧ (performOcr engineOkEnv [] failedDownload).result.lines = []
      ∧ (performOcr engineOkEnv [] failedDownload).evs.countP
          Event.isEngineCall = 0) :=
  ⟨rfl, rfl,
   perform_ocr_fetch_failure engineOkEnv [] failedDownload
     "다운로드 오류: timeout" rfl rfl⟩

/-- C6: every exception the recognition engine raises while processing
one item is converted by `_perform_ocr` into a failed `OCRTaskResult`
carrying `"OCR 오류: " ++ message` instead of propagating; the phase-2
loop therefore continues, and the failed item appears as an entry of the
results sequence (the head of the results produced from any remaining
batch starting at that item) rather than being missing. -/
theorem perform_ocr_engine_error (env : Env) (fs : FS)
    (dr : DownloadResult) (err : EngineErr) (i : Nat)
    (rest : List DownloadResult)
    (h1 : dr.success = true) (h2 : env.engine dr.temp_file = .error err) :
    (performOcr env fs dr).result.success = false
    ∧ (performOcr env fs dr).result.error = "OCR 오류: " ++ err.msg
    ∧ (phase2 env fs i (dr :: rest)).results.length = rest.length + 1
    ∧ (phase2 env fs i (dr :: rest)).results.head?
        = some (performOcr env fs dr).result := by
  refine ⟨?_, ?_, ?_, ?_⟩
  · simp [performOcr, tryBody, h1, h2]
  · simp [performOcr, tryBody, h1, h2]
  · simp [phase2_results]
  · simp [phase2]

/-- C6 witness: the theorem instantiated on an engine raising
`OCRError("model crash")` over a one-item remainder-free batch. -/
theorem perform_ocr_engine_error_witness :
    stagedDownload.success = true
    ∧ engineErrEnv.engine stagedDownload.temp_file
        = .error (.ocrError "model crash")
    ∧ ((performOcr engineErrEnv [] stagedDownload).result.success = false
      ∧ (performOcr engineErrEnv [] stagedDownload).result.error
          = "OCR 오류: " ++ (EngineErr.ocrError "model crash").msg
      ∧ (phase2 engineErrEnv [] 0 [stagedDownload]).results.length
          = ([] : List DownloadResult).length + 1
      ∧ (phase2 engineErrEnv [] 0 [stagedDownload]).results.head?
          = some (performOcr engineErrEnv [] stagedDownload).result) :=
  ⟨rfl, rfl,
   perform_ocr_engine_error engineErrEnv [] stagedDownload
     (.ocrError "model crash") 0 [] rfl rfl⟩

/-- C7: for every non-empty batch, the final results sequence is exactly
the phase-1 collection order mapped through the sequential processor: the
i-th entry of `results` is derived (by `_perform_ocr`) from the i-th
collected fetch outcome, so the batch result is in fetch-completion
order, not submission order. -/
theorem process_patients_order (env : Env) (fs : FS)
    (patients : List PatientInfo) (collected : List DownloadResult)
    (h : patients ≠ []) :
    (processPatients env fs patients collected).batch.results
      = collected.map fun dr => (performOcr env fs dr).result := by
  have hp : patients.isEmpty = false := by
    cases patients with
    | nil => exact absurd rfl h
    | cons p ps => rfl
  simp [processPatients, hp, phase2_results]
  intro a _
  rfl

/-- C7 witness: the theorem instantiated on a one-patient batch with a
failed download as the collected outcome. -/
theorem process_patients_order_witness :
    ([samplePatient] : List PatientInfo) ≠ []
    ∧ (processPatients engineOkEnv [] [samplePatient]
          [failedDownload]).batch.results
        = [failedDownload].map fun dr => (performOcr engineOkEnv [] dr).result :=
  ⟨by decide,
   process_patients_order engineOkEnv [] [samplePatient] [failedDownload]
     (by decide)⟩

/-- C8: for the empty patient list, `process_patients` returns
immediately a completed `BatchOCRResult` with `total = 0`,
`success_count = 0`, `failure_count = 0`, empty results and `end_time`
set, the file system is untouched (no staging) and the event trace is
empty — so no fetch, no engine call and no progress update occurs. -/
theorem process_patients_empty (env : Env) (fs : FS)
    (collected : List DownloadResult) :
    processPatients env fs [] collected =
      { batch := { total := 0, success_count := 0, failure_count := 0,
                   results := [], start_time := env.t_start,
                   end_time := some env.t_end },
        fs := fs, evs := [] } := rfl

/-- C9: `create_job` unconditionally installs a fresh record — status
`"pending"`, zero counters, a newly allocated empty results list — under
the given id, for every prior registry state: an id already present is
silently overwritten (Python dict assignment), never an error, and the
returned record is the one now stored. -/
theorem create_job_fresh_record (st : ManagerState) (job_id : String)
    (total : Nat) (now : String) :
    getJob (createJob st job_id total now).2 job_id
        = some (createJob st job_id total now).1
    ∧ (createJob st job_id total now).1.status = "pending"
    ∧ (createJob st job_id total now).1.total = total
    ∧ (createJob st job_id total now).1.completed = 0
    ∧ (createJob st job_id total now).1.success = 0
    ∧ (createJob st job_id total now).1.failure = 0
    ∧ (createJob st job_id total now).1.current = ""
    ∧ viewResults (createJob st job_id total now).2
        (createJob st job_id total now).1 = [] := by
  refine ⟨?_, rfl, rfl, rfl, rfl, rfl, rfl, ?_⟩
  · exact dictLookup_dictInsert job_id _ st.jobs
  · show ((st.heap ++ [[]])[st.heap.length]?).getD [] = []
    rw [List.getElem?_concat_length]
    rfl

/-- C10: `process_by_cine_nos` fails (raises `ValueError`) exactly when
the two input lists differ in length; otherwise it returns exactly
`process_patients` applied to the pairwise-zipped patient list (zip
preserves input order, remaining `PatientInfo` fields defaulted). -/
theorem process_by_cine_nos_delegates (env : Env) (fs : FS)
    (cine_nos patient_ids : List String)
    (collected : List DownloadResult) :
    ((∃ e, processByCineNos env fs cine_nos patient_ids collected
        = Except.error e) ↔ cine_nos.length ≠ patient_ids.length)
    ∧ (processByCineNos env fs cine_nos patient_ids collected
          = Except.error lengthMismatchMsg
       ∨ processByCineNos env fs cine_nos patient_ids collected
          = Except.ok (processPatients env fs
              ((cine_nos.zip patient_ids).map fun cp =>
                { cine_no := cp.1, patient_id := cp.2 }) collected)) := by
  unfold processByCineNos
  by_cases h : cine_nos.length = patient_ids.length
  · simp [h]
  · simp [h]
